import Mathlib

/-!
# Verification of the PingSource adapter (`pkg/adapter/ping/adapter.go`)

This file gives a shallow embedding of the ping adapter: the payload
interpretation function `message` (together with an executable model of Go's
`encoding/json` unmarshalling into `map[string]*json.RawMessage`), the per-tick
event emitter `cronTick`, and the blocking entry point `start`.  External
collaborators that are not part of the sources (the robfig cron parser, the
cloudevents SDK client and its retry machinery, and the `sourcesv1alpha2`
constants) are either abstracted as parameters or modelled from the
specification, as indicated in the corresponding doc comments.
-/

/-! ## JSON values

A parsed JSON value.  Go's `json.RawMessage` keeps the raw bytes of a value;
here raw messages are represented by their parsed form, which is faithful for
every observation the adapter makes of them. -/

inductive JsonValue where
  | null
  | bool (b : Bool)
  | num (lit : String)
  | str (s : String)
  | arr (elems : List JsonValue)
  | obj (fields : List (String × JsonValue))

/-! ## A model of Go `encoding/json` parsing

The parser below follows the JSON grammar as accepted by Go's
`encoding/json` scanner: optional whitespace around a single top-level value,
objects/arrays/strings/numbers/`true`/`false`/`null`, string escapes
including `\uXXXX` with surrogate-pair handling (lone surrogates decode to
U+FFFD, as in Go), numbers with no leading zeros, and an error on any
trailing non-whitespace input. -/

def isJsonWS (c : Char) : Bool :=
  c = ' ' || c = '\t' || c = '\n' || c = '\r'

def skipWS : List Char → List Char
  | [] => []
  | c :: cs => if isJsonWS c then skipWS cs else c :: cs

def hexVal (c : Char) : Option Nat :=
  if '0' ≤ c ∧ c ≤ '9' then some (c.toNat - '0'.toNat)
  else if 'a' ≤ c ∧ c ≤ 'f' then some (c.toNat - 'a'.toNat + 10)
  else if 'A' ≤ c ∧ c ≤ 'F' then some (c.toNat - 'A'.toNat + 10)
  else none

/-- Decode the four hex digits of a `\uXXXX` escape. -/
def hex4 (h1 h2 h3 h4 : Char) : Option Nat :=
  match hexVal h1, hexVal h2, hexVal h3, hexVal h4 with
  | some a, some b, some c, some d => some (((a * 16 + b) * 16 + c) * 16 + d)
  | _, _, _, _ => none

/-- Parse the body of a JSON string literal (after the opening quote),
accumulating decoded characters.  Mirrors Go's `unquote`: escapes
`\" \\ \/ \b \f \n \r \t \uXXXX`, surrogate pairs combined, lone surrogates
replaced by U+FFFD, unescaped control characters rejected. -/
def parseStringChars : Nat → List Char → List Char → Option (String × List Char)
  | 0, _, _ => none
  | _ + 1, [], _ => none
  | fuel + 1, c :: cs, acc =>
    if c = '"' then some (String.mk acc.reverse, cs)
    else if c = '\\' then
      match cs with
      | [] => none
      | e :: cs1 =>
        if e = '"' then parseStringChars fuel cs1 ('"' :: acc)
        else if e = '\\' then parseStringChars fuel cs1 ('\\' :: acc)
        else if e = '/' then parseStringChars fuel cs1 ('/' :: acc)
        else if e = 'b' then parseStringChars fuel cs1 ('\x08' :: acc)
        else if e = 'f' then parseStringChars fuel cs1 ('\x0c' :: acc)
        else if e = 'n' then parseStringChars fuel cs1 ('\n' :: acc)
        else if e = 'r' then parseStringChars fuel cs1 ('\r' :: acc)
        else if e = 't' then parseStringChars fuel cs1 ('\t' :: acc)
        else if e = 'u' then
          match cs1 with
          | h1 :: h2 :: h3 :: h4 :: cs2 =>
            match hex4 h1 h2 h3 h4 with
            | none => none
            | some code =>
              if 0xD800 ≤ code ∧ code < 0xDC00 then
                match cs2 with
                | '\\' :: 'u' :: g1 :: g2 :: g3 :: g4 :: cs3 =>
                  match hex4 g1 g2 g3 g4 with
                  | some code2 =>
                    if 0xDC00 ≤ code2 ∧ code2 < 0xE000 then
                      parseStringChars fuel cs3
                        (Char.ofNat (0x10000 + (code - 0xD800) * 0x400 + (code2 - 0xDC00)) :: acc)
                    else
                      parseStringChars fuel cs2 ('�' :: acc)
                  | none => parseStringChars fuel cs2 ('�' :: acc)
                | _ => parseStringChars fuel cs2 ('�' :: acc)
              else if 0xDC00 ≤ code ∧ code < 0xE000 then
                parseStringChars fuel cs2 ('�' :: acc)
              else
                parseStringChars fuel cs2 (Char.ofNat code :: acc)
          | _ => none
        else none
    else if c.toNat < 0x20 then none
    else parseStringChars fuel cs (c :: acc)

/-- Longest digit prefix of the input. -/
def takeDigits : List Char → List Char × List Char
  | [] => ([], [])
  | c :: cs =>
    if c.isDigit then
      let (d, r) := takeDigits cs
      (c :: d, r)
    else ([], c :: cs)

/-- Integer part of a JSON number: `0`, or a nonzero digit followed by digits. -/
def parseIntPart : List Char → Option (List Char × List Char)
  | [] => none
  | c :: cs =>
    if c = '0' then some ([c], cs)
    else if c.isDigit then
      let (d, r) := takeDigits cs
      some (c :: d, r)
    else none

/-- Optional fraction part: `.` followed by one or more digits. -/
def parseFracPart : List Char → Option (List Char × List Char)
  | '.' :: cs =>
    match takeDigits cs with
    | ([], _) => none
    | (d, r) => some ('.' :: d, r)
  | cs => some ([], cs)

/-- Optional exponent part: `e`/`E`, optional sign, one or more digits. -/
def parseExpPart : List Char → Option (List Char × List Char)
  | [] => some ([], [])
  | c :: cs =>
    if c = 'e' ∨ c = 'E' then
      match cs with
      | [] => none
      | s :: cs1 =>
        if s = '+' ∨ s = '-' then
          match takeDigits cs1 with
          | ([], _) => none
          | (d, r) => some (c :: s :: d, r)
        else
          match takeDigits cs with
          | ([], _) => none
          | (d, r) => some (c :: d, r)
    else some ([], c :: cs)

/-- Parse a JSON number literal, returning its raw text. -/
def parseNumber (cs : List Char) : Option (String × List Char) :=
  let (neg, cs1) :=
    match cs with
    | '-' :: rest => (['-'], rest)
    | _ => (([] : List Char), cs)
  match parseIntPart cs1 with
  | none => none
  | some (ip, cs2) =>
    match parseFracPart cs2 with
    | none => none
    | some (fp, cs3) =>
      match parseExpPart cs3 with
      | none => none
      | some (ep, cs4) => some (String.mk (neg ++ ip ++ fp ++ ep), cs4)

mutual

/-- Parse one JSON value (leading whitespace allowed), fuelled. -/
def parseValue : Nat → List Char → Option (JsonValue × List Char)
  | 0, _ => none
  | fuel + 1, cs =>
    match skipWS cs with
    | [] => none
    | 'n' :: 'u' :: 'l' :: 'l' :: rest => some (.null, rest)
    | 't' :: 'r' :: 'u' :: 'e' :: rest => some (.bool true, rest)
    | 'f' :: 'a' :: 'l' :: 's' :: 'e' :: rest => some (.bool false, rest)
    | '"' :: rest =>
      match parseStringChars (rest.length + 1) rest [] with
      | none => none
      | some (s, r) => some (.str s, r)
    | '[' :: rest =>
      match skipWS rest with
      | ']' :: rest1 => some (.arr [], rest1)
      | cs1 => parseElems fuel cs1 []
    | '{' :: rest =>
      match skipWS rest with
      | '}' :: rest1 => some (.obj [], rest1)
      | cs1 => parseFields fuel cs1 []
    | c :: _ =>
      if c = '-' ∨ c.isDigit then
        match parseNumber (skipWS cs) with
        | none => none
        | some (lit, r) => some (.num lit, r)
      else none

/-- Parse the remaining elements of a non-empty array. -/
def parseElems : Nat → List Char → List JsonValue → Option (JsonValue × List Char)
  | 0, _, _ => none
  | fuel + 1, cs, acc =>
    match parseValue fuel cs with
    | none => none
    | some (v, rest) =>
      match skipWS rest with
      | ',' :: rest1 => parseElems fuel rest1 (acc ++ [v])
      | ']' :: rest1 => some (.arr (acc ++ [v]), rest1)
      | _ => none

/-- Parse the remaining members of a non-empty object. -/
def parseFields : Nat → List Char → List (String × JsonValue) →
    Option (JsonValue × List Char)
  | 0, _, _ => none
  | fuel + 1, cs, acc =>
    match skipWS cs with
    | '"' :: rest =>
      match parseStringChars (rest.length + 1) rest [] with
      | none => none
      | some (k, rest1) =>
        match skipWS rest1 with
        | ':' :: rest2 =>
          match parseValue fuel rest2 with
          | none => none
          | some (v, rest3) =>
            match skipWS rest3 with
            | ',' :: rest4 => parseFields fuel rest4 (acc ++ [(k, v)])
            | '}' :: rest4 => some (.obj (acc ++ [(k, v)]), rest4)
            | _ => none
        | _ => none
    | _ => none

end

/-- Assignment `m[k] = v` on the association-list model of a Go map:
overwrite an existing binding for `k`, otherwise append. -/
def insertKV : List (String × JsonValue) → String → JsonValue →
    List (String × JsonValue)
  | [], k, v => [(k, v)]
  | (k1, v1) :: rest, k, v =>
    if k1 = k then (k, v) :: rest
    else (k1, v1) :: insertKV rest k v

/-- Populate a Go map from decoded object fields in order (later duplicate
keys overwrite earlier ones, as `m[key] = value` does). -/
def goMapOfFields (fields : List (String × JsonValue)) : List (String × JsonValue) :=
  fields.foldl (fun m kv => insertKV m kv.1 kv.2) []

/-- Model of `json.Unmarshal([]byte(s), &obj)` for
`var obj map[string]*json.RawMessage`:
* a syntactically invalid document, or trailing garbage, is an error;
* the document `null` succeeds and leaves the map `nil` (modelled as `none`);
* an object succeeds and fills the map;
* any other value kind is an `UnmarshalTypeError`. -/
def unmarshalObjMap (s : String) : Except Unit (Option (List (String × JsonValue))) :=
  match parseValue (2 * s.data.length + 2) s.data with
  | none => .error ()
  | some (v, rest) =>
    match skipWS rest with
    | _ :: _ => .error ()
    | [] =>
      match v with
      | .null => .ok none
      | .obj fields => .ok (some (goMapOfFields fields))
      | _ => .error ()

/-! ## The adapter's payload interpretation (`message`) -/

/-- The wrapper struct `Message` of the source (`Body` carries the payload
verbatim). -/
structure Message where
  Body : String

/-- The dynamic (`interface\x7b\x7d`-typed) result of `message`, as a tagged
union: either the Go map produced by a successful unmarshal (`none` being the
nil map), or the wrapped `Message`. -/
inductive MessageResult where
  | structured (m : Option (List (String × JsonValue)))
  | wrapped (msg : Message)

/-- The source's `message` function: try to unmarshal the body into a
`map[string]*json.RawMessage`; on any error default to the wrapped message. -/
def message (body : String) : MessageResult :=
  match unmarshalObjMap body with
  | .error _ => .wrapped { Body := body }
  | .ok obj => .structured obj

/-! ## External constants and the event envelope -/

/-- Modelled from the spec: the fixed CloudEvents protocol version constant
(`cloudevents.VersionV1`, the "specVersion (fixed)" of the envelope).  The
SDK is an external collaborator; only the value being a fixed constant
matters here. -/
def VersionV1 : String := "1.0"

/-- The `cloudevents.ApplicationJSON` content type, `"application/json"` per
the spec's outbound event interface. -/
def ApplicationJSON : String := "application/json"

/-- Modelled from the spec: `sourcesv1alpha2.PingSourceEventType`, the "fixed
constant identifying a ping event category".  Its definition lives outside
the sources under `src/`; only its being one fixed string matters here. -/
def PingSourceEventType : String := "dev.knative.sources.ping"

/-- Modelled from the spec: the value of the event `source` field.  The
concrete identifier format of `sourcesv1alpha2.PingSourceSource` is not part
of the sources under `src/`; the spec fixes only that the identifier is
derived deterministically from \x7bnamespace, name\x7d and that distinct
pairs never collide, so it is modelled as the record of its two inputs. -/
structure SourceId where
  ns : String
  nm : String

/-- Modelled from the spec: `sourcesv1alpha2.PingSourceSource(namespace, name)`,
the deterministic derivation of the event source identifier. -/
def PingSourceSource (ns nm : String) : SourceId := ⟨ns, nm⟩

/-- Retry parameters attached to the send context by
`cloudevents.ContextWithRetriesExponentialBackoff(ctx, period, maxTries)`. -/
structure RetryParams where
  periodMs : Nat
  maxTries : Nat

/-- The retry configuration hardcoded in `cronTick`:
`ContextWithRetriesExponentialBackoff(ctx, 50*time.Millisecond, 5)`. -/
def tickRetryParams : RetryParams := { periodMs := 50, maxTries := 5 }

/-- Modelled from the spec: the backoff delays of the exponential-backoff
retry policy — the wait before retry `i+1` starts at `periodMs` and doubles
with each further retry, for at most `maxTries` total attempts (hence at most
`maxTries - 1` waits). -/
def backoffDelaysMs (p : RetryParams) : List Nat :=
  (List.range (p.maxTries - 1)).map (fun i => p.periodMs * 2 ^ i)

/-- Modelled from the spec: the retry loop of the cloudevents client.
`ok i` tells whether attempt `i` (0-based) succeeds; the result is the number
of attempts actually made and whether one of them succeeded.  At most
`remaining` attempts are made. -/
def retryAttempts (ok : Nat → Bool) : Nat → Nat → Nat × Bool
  | 0, _ => (0, false)
  | remaining + 1, i =>
    if ok i then (1, true)
    else
      let r := retryAttempts ok remaining (i + 1)
      (r.1 + 1, r.2)

/-- The cloudevents event envelope, restricted to the attributes the adapter
sets: spec version (from `NewEvent(VersionV1)`), type, source, and — written
by `SetData` — data content type and data. -/
structure CloudEvent where
  specversion : String
  type : String
  source : SourceId
  datacontenttype : Option String
  data : Option MessageResult

/-! ## The adapter -/

/-- The `pingAdapter` struct of the source (the cloudevents client is kept
external: its behavior enters through `TickEnv` below). -/
structure pingAdapter where
  Schedule : String
  Data : String
  Name : String
  Namespace : String

/-- Outcome of one tick's interactions with external collaborators: whether
`event.SetData` returns a non-nil error, and whether `Client.Send` returns a
non-nil error (after its internal retries). -/
structure TickEnv where
  setDataFails : Bool
  sendFails : Bool

/-- One handoff of an event to `Client.Send`, together with the retry
parameters carried by the context it is sent under. -/
structure SendCall where
  params : RetryParams
  event : CloudEvent

/-- Observable result of one `cronTick` invocation: the error log lines
emitted and the events handed to the sender.  `cronTick` returns nothing in
the source; in particular no error value is produced. -/
structure TickResult where
  logs : List String
  sends : List SendCall

/-- The source's `cronTick`: build the envelope (version V1, ping type,
source from \x7bNamespace, Name\x7d), attempt `SetData(ApplicationJSON,
message(a.Data))` — on error, log and fall through — then hand the event to
`Client.Send` under the retry context, logging a send error.  The data
content type is written by `SetData` before the body is encoded (the SDK sets
it unconditionally), so it is present even when setting the data fails. -/
def cronTick (a : pingAdapter) (env : TickEnv) : TickResult :=
  let ev : CloudEvent :=
    { specversion := VersionV1
      type := PingSourceEventType
      source := PingSourceSource a.Namespace a.Name
      datacontenttype := some ApplicationJSON
      data := if env.setDataFails then none else some (message a.Data) }
  let logs1 := if env.setDataFails then ["ping failed to set event data"] else []
  let logs2 := if env.sendFails then ["ping failed to send cloudevent"] else []
  { logs := logs1 ++ logs2
    sends := [{ params := tickRetryParams, event := ev }] }

/-- The source's `start`, as a trace function.  `parse` abstracts
`cron.ParseStandard` (external to the repository); `ticks` lists the
per-tick external outcomes of the tick instants occurring before the stop
channel fires.  The first component is the error returned by `start`
(`none` is Go's `nil`, returned after the stop signal is consumed); the
second is the sequence of `cronTick` invocations performed. -/
def start {σ : Type} (parse : String → Except String σ) (a : pingAdapter)
    (ticks : List TickEnv) : Option String × List TickResult :=
  match parse a.Schedule with
  | .error err => (some ("unparseable schedule " ++ a.Schedule ++ ": " ++ err), [])
  | .ok _ => (none, ticks.map (cronTick a))

/-- The source's `Start(ctx)`: delegates to `start(ctx.Done())`. -/
def Start {σ : Type} (parse : String → Except String σ) (a : pingAdapter)
    (ticks : List TickEnv) : Option String × List TickResult :=
  start parse a ticks

/-! ## Helper lemmas -/

/-- The retry loop never makes more attempts than it has budget for. -/
theorem retryAttempts_le (ok : Nat → Bool) : ∀ n i, (retryAttempts ok n i).fst ≤ n := by
  intro n
  induction n with
  | zero => intro i; simp [retryAttempts]
  | succ m ih =>
    intro i
    unfold retryAttempts
    split
    · simp
    · simpa using Nat.succ_le_succ (ih (i + 1))

/-! ## Claims -/

/-- C1: `message` attempts to unmarshal the payload as a JSON object mapping
string keys to raw JSON values; on success the body is the parsed mapping, on
any failure it is the wrapped record; in particular for the three spec
examples. -/
theorem message_policy :
    (∀ s obj, unmarshalObjMap s = .ok obj → message s = .structured obj) ∧
    (∀ s e, unmarshalObjMap s = .error e → message s = .wrapped { Body := s }) ∧
    message "\x7b\"a\":1\x7d" = .structured (some [("a", JsonValue.num "1")]) ∧
    message "not json" = .wrapped { Body := "not json" } ∧
    message "[1,2,3]" = .wrapped { Body := "[1,2,3]" } := by
  refine ⟨?_, ?_, rfl, rfl, rfl⟩
  · intro s obj h
    unfold message
    rw [h]
  · intro s e h
    unfold message
    rw [h]

/-- C1, witness: the two conditional parts of `message_policy` at concrete
inputs. -/
theorem message_policy_witness :
    message "\x7b\x7d" = .structured (some []) ∧
    message "x" = .wrapped { Body := "x" } :=
  ⟨message_policy.1 "\x7b\x7d" (some []) rfl, message_policy.2.1 "x" () rfl⟩

/-- C7: `message` is total — for every input string it returns a valid body,
either a parsed mapping or the wrapped record, and no error path exists. -/
theorem message_total (s : String) :
    (∃ obj, message s = .structured obj) ∨ message s = .wrapped { Body := s } := by
  unfold message
  cases unmarshalObjMap s with
  | error e => exact .inr rfl
  | ok obj => exact .inl ⟨obj, rfl⟩

/-- C10: unmarshalling the payload `"null"` into the map succeeds with a nil
map, so `message` returns the nil mapping, not the wrapped record. -/
theorem message_null_is_nil_map :
    unmarshalObjMap "null" = .ok none ∧ message "null" = .structured none :=
  ⟨rfl, rfl⟩

/-- C2: `start` returns a non-nil error exactly when the schedule expression
fails to parse; whenever it parses, the call returns Go `nil` once the stop
signal has fired, for every trace of tick outcomes (hence regardless of
tick-level failures). -/
theorem start_error_iff_unparseable {σ : Type} (parse : String → Except String σ)
    (a : pingAdapter) (ticks : List TickEnv) :
    (start parse a ticks).fst = none ↔ ∃ s, parse a.Schedule = .ok s := by
  unfold start
  cases h : parse a.Schedule with
  | error e => simp
  | ok s => exact ⟨fun _ => ⟨s, rfl⟩, fun _ => rfl⟩

/-- C2, witness: a parse that succeeds yields a nil return. -/
theorem start_error_iff_unparseable_witness :
    (start (fun _ => (.ok () : Except String Unit))
        { Schedule := "* * * * *", Data := "d", Name := "n", Namespace := "s" }
        []).fst = none :=
  (start_error_iff_unparseable (fun _ => (.ok () : Except String Unit))
    { Schedule := "* * * * *", Data := "d", Name := "n", Namespace := "s" } []).mpr
    ⟨(), rfl⟩

/-- C6: for every schedule whose parse fails, `start` returns the formatted
error synchronously and performs no scheduling — the tick callback is never
invoked. -/
theorem start_parse_failure_no_ticks {σ : Type} (parse : String → Except String σ)
    (a : pingAdapter) (ticks : List TickEnv) (e : String)
    (h : parse a.Schedule = .error e) :
    start parse a ticks
      = (some ("unparseable schedule " ++ a.Schedule ++ ": " ++ e), []) := by
  unfold start
  rw [h]

/-- C6, witness: a failing parse at a concrete schedule, zero invocations. -/
theorem start_parse_failure_no_ticks_witness :
    start (fun _ => (.error "bad" : Except String Unit))
        { Schedule := "sched", Data := "d", Name := "n", Namespace := "s" }
        [{ setDataFails := false, sendFails := false }]
      = (some "unparseable schedule sched: bad", []) :=
  start_parse_failure_no_ticks (fun _ => (.error "bad" : Except String Unit))
    { Schedule := "sched", Data := "d", Name := "n", Namespace := "s" }
    [{ setDataFails := false, sendFails := false }] "bad" rfl

/-- C5: no tick-level error crosses the component boundary — `cronTick`
produces a normal `TickResult` for every sender outcome (its Lean type, as in
the source, has no error result), `start` still returns nil whatever the
per-tick outcomes are, and a tick's outcome never affects the results of the
surrounding ticks: each tick's result is `cronTick` of its own environment
alone. -/
theorem tick_failures_never_propagate {σ : Type} (parse : String → Except String σ)
    (a : pingAdapter) (pre post : List TickEnv) (env : TickEnv) (s : σ)
    (h : parse a.Schedule = .ok s) :
    (start parse a (pre ++ env :: post)).fst = none ∧
    (start parse a (pre ++ env :: post)).snd
      = pre.map (cronTick a) ++ cronTick a env :: post.map (cronTick a) := by
  unfold start
  rw [h]
  exact ⟨rfl, by simp⟩

/-- C5, witness: a trace whose middle tick fails to send entirely; the run
returns nil and the subsequent tick still executes normally. -/
theorem tick_failures_never_propagate_witness :
    (start (fun _ => (.ok () : Except String Unit))
        { Schedule := "* * * * *", Data := "d", Name := "n", Namespace := "s" }
        ([{ setDataFails := false, sendFails := false }] ++
          { setDataFails := false, sendFails := true } ::
            [{ setDataFails := false, sendFails := false }])).fst = none :=
  (tick_failures_never_propagate (fun _ => (.ok () : Except String Unit))
    { Schedule := "* * * * *", Data := "d", Name := "n", Namespace := "s" }
    [{ setDataFails := false, sendFails := false }]
    [{ setDataFails := false, sendFails := false }]
    { setDataFails := false, sendFails := true } () rfl).1

/-- C3, counterexample: on a tick where setting the event body fails, the
code logs the failure but still hands the event to the sender — the claim
that no event reaches the sender on such a tick is false. -/
theorem cronTick_setData_failure_still_sends_cex :
    (cronTick { Schedule := "* * * * *", Data := "hello", Name := "n", Namespace := "ns" }
        { setDataFails := true, sendFails := false }).logs
      = ["ping failed to set event data"] ∧
    (cronTick { Schedule := "* * * * *", Data := "hello", Name := "n", Namespace := "ns" }
        { setDataFails := true, sendFails := false }).sends.length = 1 :=
  ⟨rfl, rfl⟩

/-- C3, amended: on every tick where setting the event body fails, `cronTick`
logs the failure and continues without crashing the trigger, but the event —
with no data attached — is still handed to the sender. -/
theorem cronTick_setData_failure_logs_and_continues
    (a : pingAdapter) (env : TickEnv) (h : env.setDataFails = true) :
    (cronTick a env).logs.head? = some "ping failed to set event data" ∧
    (cronTick a env).sends.map (fun sc => sc.event.data) = [none] ∧
    (cronTick a env).sends.length = 1 := by
  obtain ⟨sd, sf⟩ := env
  replace h : sd = true := h
  subst h
  cases sf <;> exact ⟨rfl, rfl, rfl⟩

/-- C3 (amended), witness. -/
theorem cronTick_setData_failure_logs_and_continues_witness :
    (cronTick { Schedule := "@hourly", Data := "p", Name := "nm", Namespace := "ns" }
        { setDataFails := true, sendFails := true }).logs.head?
      = some "ping failed to set event data" ∧
    (cronTick { Schedule := "@hourly", Data := "p", Name := "nm", Namespace := "ns" }
        { setDataFails := true, sendFails := true }).sends.map (fun sc => sc.event.data)
      = [none] ∧
    (cronTick { Schedule := "@hourly", Data := "p", Name := "nm", Namespace := "ns" }
        { setDataFails := true, sendFails := true }).sends.length = 1 :=
  cronTick_setData_failure_logs_and_continues
    { Schedule := "@hourly", Data := "p", Name := "nm", Namespace := "ns" }
    { setDataFails := true, sendFails := true } rfl

/-- C4: every tick hands the event to the sender under the retry context with
period 50 ms and at most 5 total attempts; the modelled exponential-backoff
policy makes at most 5 attempts, waits 50 ms before the first retry, doubles
each subsequent wait (50, 100, 200, 400), and its total backoff of 750 ms
stays under one minute. -/
theorem send_retry_policy (a : pingAdapter) (env : TickEnv) (ok : Nat → Bool) :
    (cronTick a env).sends.map (fun sc => sc.params) = [tickRetryParams] ∧
    tickRetryParams = { periodMs := 50, maxTries := 5 } ∧
    (retryAttempts ok tickRetryParams.maxTries 0).fst ≤ 5 ∧
    backoffDelaysMs tickRetryParams = [50, 100, 200, 400] ∧
    (backoffDelaysMs tickRetryParams).sum < 60000 := by
  refine ⟨rfl, rfl, ?_, rfl, by decide⟩
  exact retryAttempts_le ok 5 0

/-- C8: every tick's envelope carries the fixed V1 spec version, the fixed
ping event type, the source derived from the adapter's namespace and name,
and content type `application/json`; these attributes are identical across
all ticks of one adapter instance. -/
theorem envelope_fields_fixed (a : pingAdapter) (env env2 : TickEnv) :
    (cronTick a env).sends.map
        (fun sc => (sc.event.specversion, sc.event.type, sc.event.source,
          sc.event.datacontenttype))
      = [(VersionV1, PingSourceEventType, PingSourceSource a.Namespace a.Name,
          some ApplicationJSON)] ∧
    (cronTick a env).sends.map
        (fun sc => (sc.event.specversion, sc.event.type, sc.event.source,
          sc.event.datacontenttype))
      = (cronTick a env2).sends.map
        (fun sc => (sc.event.specversion, sc.event.type, sc.event.source,
          sc.event.datacontenttype)) :=
  ⟨rfl, rfl⟩

/-- C9: the event source is a pure function of the pair — identical
\x7bnamespace, name\x7d pairs give the identical identifier, and distinct
pairs never collide. -/
theorem pingSourceSource_injective (ns nm ns2 nm2 : String) :
    PingSourceSource ns nm = PingSourceSource ns2 nm2 ↔ ns = ns2 ∧ nm = nm2 := by
  constructor
  · intro h
    exact ⟨congrArg SourceId.ns h, congrArg SourceId.nm h⟩
  · rintro ⟨h1, h2⟩
    rw [h1, h2]

/-- C9, witness: equal pairs yield the identical identifier. -/
theorem pingSourceSource_injective_witness :
    PingSourceSource "default" "ping" = PingSourceSource "default" "ping" :=
  (pingSourceSource_injective "default" "ping" "default" "ping").mpr ⟨rfl, rfl⟩

